import Mathlib

/-!
Shallow embedding of the unisystem workshop/inventory backend
(src/accounts/models.py and src/mecanico/models.py).

Conventions of the embedding:
* Django model instances become Lean structures; foreign keys become
  numeric ids (Nat).
* DecimalField(max_digits=10, decimal_places=2) values are stored as
  integers counting hundredths (cents); this is exact, as Python's
  Decimal arithmetic is for these sizes.
* IntegerField becomes Int.
* CharField/TextField become String; nullable/blank text becomes
  Option String.
* Model-level validation (full_clean: field validators, choices
  membership, required text, uniqueness against existing rows) becomes
  a Bool-valued function per model.
* The post_save signal receivers of accounts/models.py become explicit
  state-transition functions on a list of profile rows.
-/

namespace Accounts

/-- Row of the PerfilUsuario model (src/accounts/models.py lines 6-18).
Fields irrelevant to the claims (fecha_ingreso) are omitted; the user
foreign key is a numeric id. -/
structure PerfilUsuario where
  user : Nat
  rol : String
  telefono : Option String
  activo : Bool
  deriving Repr, DecidableEq

/-- The ROL_CHOICES list of PerfilUsuario (value, display). -/
def ROL_CHOICES : List (String × String) :=
  [("administrador", "Administrador"),
   ("trabajador", "Trabajador"),
   ("tecnico", "Técnico")]

/-- A freshly created PerfilUsuario row taking every default declared on
the model: rol defaults to trabajador, telefono is null, activo true. -/
def nuevoPerfil (user : Nat) : PerfilUsuario :=
  { user := user, rol := "trabajador", telefono := none, activo := true }

/-- The accounts-side persistent state: the PerfilUsuario table. -/
structure AccountsState where
  perfiles : List PerfilUsuario
  deriving Repr, DecidableEq

/-- Saving a profile row: update in place when a row for the same user
exists (OneToOneField key), otherwise insert. -/
def savePerfil (perfiles : List PerfilUsuario) (p : PerfilUsuario) :
    List PerfilUsuario :=
  if perfiles.any (fun q => q.user == p.user) then
    perfiles.map (fun q => if q.user == p.user then p else q)
  else
    perfiles ++ [p]

/-- Receiver crear_perfil_usuario (accounts/models.py lines 39-43): on
post_save of a User, when the save was a creation, insert a new
PerfilUsuario with model defaults for that user. -/
def crear_perfil_usuario (st : AccountsState) (instancia : Nat)
    (created : Bool) : AccountsState :=
  if created then
    { perfiles := st.perfiles ++ [nuevoPerfil instancia] }
  else st

/-- Receiver guardar_perfil_usuario (accounts/models.py lines 45-49): on
post_save of a User, if the user has an attached profile, re-save that
profile. -/
def guardar_perfil_usuario (st : AccountsState) (instancia : Nat) :
    AccountsState :=
  match st.perfiles.find? (fun p => p.user == instancia) with
  | some p => { perfiles := savePerfil st.perfiles p }
  | none => st

/-- Effect of saving a User: both post_save receivers run, in the order
they are declared in the module. -/
def post_save_user (st : AccountsState) (instancia : Nat)
    (created : Bool) : AccountsState :=
  guardar_perfil_usuario (crear_perfil_usuario st instancia created) instancia

/-- Number of profile rows attached to a given user. -/
def perfilesDe (st : AccountsState) (user : Nat) : Nat :=
  (st.perfiles.filter (fun p => p.user == user)).length

end Accounts

namespace Mecanico

/-- Row of the ElementoMecanico model (mecanico/models.py lines 47-104).
Foreign keys are numeric ids; prices are cents (Decimal with 2 places);
timestamps are omitted. -/
structure ElementoMecanico where
  codigo : String
  nombre : String
  categoria : Nat
  descripcion : Option String
  medidas : Option String
  material : Option String
  marca : Option String
  modelo : Option String
  cantidad_actual : Int
  stock_minimo : Int
  unidad_medida : String
  ubicacion : Nat
  precio_compra : Option Int
  precio_venta : Option Int
  observaciones : Option String
  activo : Bool
  usuario_creacion : Nat
  deriving Repr, DecidableEq

/-- The UNIDAD_MEDIDA_CHOICES list (value, display). -/
def UNIDAD_MEDIDA_CHOICES : List (String × String) :=
  [("unidad", "Unidad"),
   ("metro", "Metro"),
   ("litro", "Litro"),
   ("kilogramo", "Kilogramo"),
   ("caja", "Caja"),
   ("juego", "Juego")]

/-- An ElementoMecanico created with every field default declared on the
model: cantidad_actual 0, stock_minimo 5, unidad_medida unidad, activo
true, optional fields null. -/
def elementoConDefaults (codigo nombre : String) (categoria ubicacion
    usuario_creacion : Nat) : ElementoMecanico :=
  { codigo := codigo, nombre := nombre, categoria := categoria,
    descripcion := none, medidas := none, material := none, marca := none,
    modelo := none, cantidad_actual := 0, stock_minimo := 5,
    unidad_medida := "unidad", ubicacion := ubicacion,
    precio_compra := none, precio_venta := none, observaciones := none,
    activo := true, usuario_creacion := usuario_creacion }

/-- The stock_bajo property (mecanico/models.py lines 94-97):
cantidad_actual is at or below stock_minimo. -/
def stock_bajo (e : ElementoMecanico) : Bool :=
  e.cantidad_actual ≤ e.stock_minimo

/-- The valor_total_stock property (mecanico/models.py lines 99-104).
The source guard is Python truthiness on precio_compra: both None and a
zero Decimal take the final return 0 branch. -/
def valor_total_stock (e : ElementoMecanico) : Int :=
  match e.precio_compra with
  | some p => if p ≠ 0 then e.cantidad_actual * p else 0
  | none => 0

/-- Model validation of an ElementoMecanico (full_clean): field
validators MinValueValidator(0) on cantidad_actual and stock_minimo,
required non-blank codigo and nombre, uniqueness of codigo against the
existing rows, and choices membership of unidad_medida. -/
def validarElemento (codigosExistentes : List String)
    (e : ElementoMecanico) : Bool :=
  decide (0 ≤ e.cantidad_actual) &&
  decide (0 ≤ e.stock_minimo) &&
  e.codigo ≠ "" &&
  !(codigosExistentes.contains e.codigo) &&
  e.nombre ≠ "" &&
  (UNIDAD_MEDIDA_CHOICES.map Prod.fst).contains e.unidad_medida

/-- Row of the MovimientoStock model (mecanico/models.py lines 107-129).
Foreign keys are numeric ids; the auto timestamp is omitted. -/
structure MovimientoStock where
  elemento : Nat
  tipo_movimiento : String
  cantidad : Int
  motivo : String
  stock_anterior : Int
  stock_nuevo : Int
  usuario : Nat
  deriving Repr, DecidableEq

/-- The TIPO_MOVIMIENTO_CHOICES list (value, display). -/
def TIPO_MOVIMIENTO_CHOICES : List (String × String) :=
  [("entrada", "Entrada"),
   ("salida", "Salida"),
   ("ajuste", "Ajuste de inventario"),
   ("devolucion", "Devolución")]

/-- Model validation of a MovimientoStock (full_clean): choices
membership of tipo_movimiento, MinValueValidator(1) on cantidad, and
required non-blank motivo. stock_anterior and stock_nuevo are plain
IntegerFields carrying no validator, so no condition constrains them,
and nothing relates them to the element's cantidad_actual. -/
def validarMovimiento (m : MovimientoStock) : Bool :=
  (TIPO_MOVIMIENTO_CHOICES.map Prod.fst).contains m.tipo_movimiento &&
  decide (1 ≤ m.cantidad) &&
  m.motivo ≠ ""

/-- Row of the OrdenTrabajo model (mecanico/models.py lines 173-220).
Foreign keys are numeric ids; costs are cents; timestamps are omitted. -/
structure OrdenTrabajo where
  numero_orden : String
  cliente : Nat
  tipo_maquina : Nat
  marca_maquina : Option String
  modelo_maquina : Option String
  numero_serie : Option String
  ano_maquina : Option Int
  motivo_ingreso : String
  descripcion_trabajo : Option String
  observaciones : Option String
  estado : String
  costo_estimado : Option Int
  costo_final : Option Int
  tecnico_asignado : Option Nat
  usuario_creacion : Nat
  deriving Repr, DecidableEq

/-- The ESTADO_CHOICES list of OrdenTrabajo (value, display),
mecanico/models.py lines 175-183. -/
def ESTADO_CHOICES : List (String × String) :=
  [("ingreso", "Ingreso"),
   ("presupuesto", "Presupuesto"),
   ("confirmacion", "Confirmación"),
   ("en_proceso", "En Proceso"),
   ("terminado", "Terminado"),
   ("entregado", "Entregado"),
   ("cancelado", "Cancelado")]

/-- Model validation of an OrdenTrabajo (full_clean): required non-blank
numero_orden and motivo_ingreso, uniqueness of numero_orden, choices
membership of estado, and MinValueValidator(1900) on ano_maquina when
present. -/
def validarOrden (numerosExistentes : List String) (o : OrdenTrabajo) :
    Bool :=
  o.numero_orden ≠ "" &&
  !(numerosExistentes.contains o.numero_orden) &&
  o.motivo_ingreso ≠ "" &&
  (ESTADO_CHOICES.map Prod.fst).contains o.estado &&
  (match o.ano_maquina with
   | some a => decide (1900 ≤ a)
   | none => true)

/-- Updating the estado field of a work order and validating the choice:
the only check the code performs on a state change is membership of the
new value in ESTADO_CHOICES; no transition relation is consulted. -/
def actualizarEstado (o : OrdenTrabajo) (nuevo : String) :
    Option OrdenTrabajo :=
  if (ESTADO_CHOICES.map Prod.fst).contains nuevo then
    some { o with estado := nuevo }
  else none

/-- Position of a state in the forward workflow of the spec
(intake, quote, confirmation, in progress, finished, then delivered or
cancelled as terminal outcomes). This ordering comes from the spec
narrative; the code declares no such ordering. -/
def estadoRank (s : String) : Nat :=
  if s = "ingreso" then 0
  else if s = "presupuesto" then 1
  else if s = "confirmacion" then 2
  else if s = "en_proceso" then 3
  else if s = "terminado" then 4
  else 5

/-- Row of the ElementoUsadoOrden model (mecanico/models.py lines
222-241). precio_unitario is cents. -/
structure ElementoUsadoOrden where
  orden : Nat
  elemento : Nat
  cantidad_usada : Int
  precio_unitario : Int
  usuario : Nat
  deriving Repr, DecidableEq

/-- The subtotal property (mecanico/models.py lines 239-241):
cantidad_usada times precio_unitario, in cents. -/
def subtotal (x : ElementoUsadoOrden) : Int :=
  x.cantidad_usada * x.precio_unitario

end Mecanico

/-! ## Helper lemmas for the accounts signal receivers -/

namespace Accounts

/-- Listing a fresh profile behind profiles of other users, find? by the
fresh user id returns exactly the fresh profile. -/
theorem find?_append_fresh (l : List PerfilUsuario) (u : Nat)
    (h : ∀ p ∈ l, (p.user == u) = false) :
    (l ++ [nuevoPerfil u]).find? (fun p => p.user == u) =
      some (nuevoPerfil u) := by
  induction l with
  | nil => simp [List.find?, nuevoPerfil]
  | cons q l ih =>
      have hq := h q (List.mem_cons_self q l)
      simp only [List.cons_append, List.find?, hq]
      exact ih (fun p hp => h p (List.mem_cons_of_mem _ hp))

/-- Re-saving the freshly inserted profile leaves the table unchanged. -/
theorem savePerfil_append_fresh (l : List PerfilUsuario) (u : Nat)
    (h : ∀ p ∈ l, (p.user == u) = false) :
    savePerfil (l ++ [nuevoPerfil u]) (nuevoPerfil u) =
      l ++ [nuevoPerfil u] := by
  unfold savePerfil
  have hu : (nuevoPerfil u).user = u := rfl
  have hany : ((l ++ [nuevoPerfil u]).any
      (fun q => q.user == (nuevoPerfil u).user)) = true := by
    simp [nuevoPerfil]
  rw [if_pos hany]
  rw [List.map_append]
  congr 1
  · refine (List.map_congr_left ?_).trans (List.map_id l)
    intro p hp
    simp [hu, h p hp]
  · simp [hu]

/-- Saving a fresh user (no profile row attached yet) appends exactly the
default profile: crear_perfil_usuario inserts it and
guardar_perfil_usuario re-saves it without further change. -/
theorem post_save_user_fresh (st : AccountsState) (u : Nat)
    (h : ∀ p ∈ st.perfiles, (p.user == u) = false) :
    post_save_user st u true =
      ⟨st.perfiles ++ [nuevoPerfil u]⟩ := by
  unfold post_save_user crear_perfil_usuario
  rw [if_pos rfl]
  unfold guardar_perfil_usuario
  simp only [find?_append_fresh st.perfiles u h]
  rw [savePerfil_append_fresh st.perfiles u h]

end Accounts

/-! ## C1 and C10: profile creation on user creation, none on update -/

/-- C1. Creating a user (a save with created = true) for a user with no
pre-existing profile row yields exactly one profile row for that user,
and that row's rol is trabajador, the model default. -/
theorem crear_usuario_un_perfil (st : Accounts.AccountsState) (u : Nat)
    (h : ∀ p ∈ st.perfiles, p.user ≠ u) :
    Accounts.perfilesDe (Accounts.post_save_user st u true) u = 1 ∧
    ∀ p ∈ (Accounts.post_save_user st u true).perfiles,
      p.user = u → p.rol = "trabajador" := by
  have hb : ∀ p ∈ st.perfiles, (p.user == u) = false := by
    intro p hp
    simpa using h p hp
  rw [Accounts.post_save_user_fresh st u hb]
  constructor
  · unfold Accounts.perfilesDe
    rw [List.filter_append]
    have h1 : st.perfiles.filter (fun p => p.user == u) = [] := by
      refine List.filter_eq_nil_iff.2 ?_
      intro p hp
      simp [hb p hp]
    rw [h1]
    simp [Accounts.nuevoPerfil]
  · intro p hp hpu
    rcases List.mem_append.1 hp with hmem | hmem
    · exact absurd hpu (h p hmem)
    · rcases List.mem_singleton.1 hmem with rfl
      rfl

/-- Witness for C1 at a concrete state: the empty table and user 1. -/
theorem crear_usuario_un_perfil_witness :
    Accounts.perfilesDe (Accounts.post_save_user ⟨[]⟩ 1 true) 1 = 1 ∧
    ∀ p ∈ (Accounts.post_save_user (⟨[]⟩ : Accounts.AccountsState) 1
        true).perfiles, p.user = 1 → p.rol = "trabajador" :=
  crear_usuario_un_perfil ⟨[]⟩ 1 (by intro p hp; simp at hp)

/-- C10. Saving an already-existing user (created = false) never changes
the number of profile rows of any user: crear_perfil_usuario does
nothing and guardar_perfil_usuario only re-saves an attached profile. -/
theorem actualizar_usuario_no_crea_perfil (st : Accounts.AccountsState)
    (u v : Nat) :
    Accounts.perfilesDe (Accounts.post_save_user st u false) v =
      Accounts.perfilesDe st v := by
  unfold Accounts.post_save_user Accounts.crear_perfil_usuario
  rw [if_neg (by simp)]
  unfold Accounts.guardar_perfil_usuario
  cases hf : st.perfiles.find? (fun p => p.user == u) with
  | none => rfl
  | some p =>
      have hmem : p ∈ st.perfiles := List.mem_of_find?_eq_some hf
      have hany : (st.perfiles.any (fun q => q.user == p.user)) = true :=
        List.any_eq_true.2 ⟨p, hmem, by simp⟩
      dsimp only
      unfold Accounts.savePerfil
      rw [if_pos hany]
      unfold Accounts.perfilesDe
      rw [← List.countP_eq_length_filter, ← List.countP_eq_length_filter,
        List.countP_map]
      refine List.countP_congr ?_
      intro q hq
      simp only [Function.comp]
      by_cases hqp : q.user = p.user
      · simp [hqp]
      · simp [hqp]

/-! ## C2 and C9: the stock_bajo property -/

/-- C2. For non-negative current quantity and minimum threshold, the
stock_bajo property holds exactly when cantidad_actual is at most
stock_minimo. -/
theorem stock_bajo_iff (e : Mecanico.ElementoMecanico)
    (hc : 0 ≤ e.cantidad_actual) (hm : 0 ≤ e.stock_minimo) :
    Mecanico.stock_bajo e = true ↔ e.cantidad_actual ≤ e.stock_minimo := by
  simp [Mecanico.stock_bajo]

/-- Witness for C2 at a concrete item with quantity 3 and threshold 5. -/
theorem stock_bajo_iff_witness :
    Mecanico.stock_bajo { Mecanico.elementoConDefaults "TOR-001"
        "Tornillo" 1 1 1 with cantidad_actual := 3 } = true ↔
      ({ Mecanico.elementoConDefaults "TOR-001" "Tornillo" 1 1 1 with
        cantidad_actual := 3 } : Mecanico.ElementoMecanico).cantidad_actual ≤
      ({ Mecanico.elementoConDefaults "TOR-001" "Tornillo" 1 1 1 with
        cantidad_actual := 3 } : Mecanico.ElementoMecanico).stock_minimo :=
  stock_bajo_iff _ (by decide) (by decide)

/-- C9. An item created with the model defaults (cantidad_actual 0,
stock_minimo 5) has stock_bajo true immediately. -/
theorem stock_bajo_con_defaults (codigo nombre : String)
    (categoria ubicacion usuario : Nat) :
    Mecanico.stock_bajo (Mecanico.elementoConDefaults codigo nombre
      categoria ubicacion usuario) = true := by
  rfl

/-! ## C3: stock movement consistency is not enforced -/

namespace Mecanico

/-- An inventory row sitting at quantity 10: the element the example
movement below refers to (foreign key id 1). -/
def elementoEjemplo : ElementoMecanico :=
  { elementoConDefaults "ROD-608" "Rodamiento 608" 1 1 1 with
    cantidad_actual := 10 }

/-- A salida movement on element 1 whose snapshots disagree both with
the element's running quantity (50 vs 10) and with each other
(3 is not 50 - 2). -/
def movimientoInconsistente : MovimientoStock :=
  { elemento := 1, tipo_movimiento := "salida", cantidad := 2,
    motivo := "uso en orden de trabajo", stock_anterior := 50,
    stock_nuevo := 3, usuario := 1 }

end Mecanico

/-- C3. Validation of a stock movement never reads stock_anterior or
stock_nuevo (left conjunct: changing them cannot change the verdict),
and the concrete movement whose snapshots disagree with the element's
cantidad_actual and with each other passes validation. -/
theorem movimiento_consistencia_no_exigida :
    (∀ (m : Mecanico.MovimientoStock) (a n : Int),
      Mecanico.validarMovimiento
        { m with stock_anterior := a, stock_nuevo := n } =
        Mecanico.validarMovimiento m) ∧
    Mecanico.validarMovimiento Mecanico.movimientoInconsistente = true ∧
    Mecanico.movimientoInconsistente.stock_anterior ≠
      Mecanico.elementoEjemplo.cantidad_actual ∧
    Mecanico.movimientoInconsistente.stock_nuevo ≠
      Mecanico.movimientoInconsistente.stock_anterior -
        Mecanico.movimientoInconsistente.cantidad := by
  refine ⟨fun m a n => rfl, ?_, ?_, ?_⟩ <;> decide

/-! ## C4: the estado field of a work order accepts exactly seven values -/

/-- C4. For a work order whose remaining fields pass their own checks,
model validation succeeds exactly when estado is one of the seven
enumerated values; any other estado value is rejected. -/
theorem estado_solo_siete_valores (ns : List String)
    (o : Mecanico.OrdenTrabajo)
    (h1 : o.numero_orden ≠ "")
    (h2 : o.numero_orden ∉ ns)
    (h3 : o.motivo_ingreso ≠ "")
    (h4 : ∀ a, o.ano_maquina = some a → 1900 ≤ a) :
    Mecanico.validarOrden ns o = true ↔
      (o.estado = "ingreso" ∨ o.estado = "presupuesto" ∨
       o.estado = "confirmacion" ∨ o.estado = "en_proceso" ∨
       o.estado = "terminado" ∨ o.estado = "entregado" ∨
       o.estado = "cancelado") := by
  cases hano : o.ano_maquina with
  | none =>
      simp [Mecanico.validarOrden, Mecanico.ESTADO_CHOICES, h1, h2, h3, hano]
  | some a =>
      have ha := h4 a hano
      simp [Mecanico.validarOrden, Mecanico.ESTADO_CHOICES, h1, h2, h3,
        hano, ha]

/-- Witness for C4: an otherwise-valid concrete order with estado
en_proceso validates, and one with an unknown estado is rejected. -/
theorem estado_solo_siete_valores_witness :
    (Mecanico.validarOrden []
      { numero_orden := "OT-0002", cliente := 1, tipo_maquina := 1,
        marca_maquina := none, modelo_maquina := none,
        numero_serie := none, ano_maquina := some 2005,
        motivo_ingreso := "Fuga de aceite", descripcion_trabajo := none,
        observaciones := none, estado := "en_proceso",
        costo_estimado := none, costo_final := none,
        tecnico_asignado := none, usuario_creacion := 1 } = true ↔
      (("en_proceso" : String) = "ingreso" ∨
       ("en_proceso" : String) = "presupuesto" ∨
       ("en_proceso" : String) = "confirmacion" ∨
       ("en_proceso" : String) = "en_proceso" ∨
       ("en_proceso" : String) = "terminado" ∨
       ("en_proceso" : String) = "entregado" ∨
       ("en_proceso" : String) = "cancelado")) :=
  estado_solo_siete_valores [] _ (by decide) (by decide) (by decide)
    (fun a ha => by simp at ha; omega)

/-! ## C5: no transition ordering is enforced on estado -/

namespace Mecanico

/-- A delivered work order, the starting point of the backward
transition example. -/
def ordenEntregada : OrdenTrabajo :=
  { numero_orden := "OT-0001", cliente := 1, tipo_maquina := 1,
    marca_maquina := none, modelo_maquina := none, numero_serie := none,
    ano_maquina := none, motivo_ingreso := "No enciende",
    descripcion_trabajo := none, observaciones := none,
    estado := "entregado", costo_estimado := none, costo_final := none,
    tecnico_asignado := none, usuario_creacion := 1 }

end Mecanico

/-- Counterexample to C5 as stated: the code accepts the update of a
delivered order back to ingreso, a strictly backward move in the spec's
workflow ordering, so a sequence of updates can move the state
backward. -/
theorem estado_retrocede :
    Mecanico.actualizarEstado Mecanico.ordenEntregada "ingreso" =
      some { Mecanico.ordenEntregada with estado := "ingreso" } ∧
    Mecanico.estadoRank "ingreso" < Mecanico.estadoRank "entregado" := by
  constructor
  · rfl
  · decide

/-- C5 amended: the estado field ranges over the seven workflow values,
but the code enforces no ordering between them; an update from any
current state to any of the seven values is accepted, backward moves
included. -/
theorem estado_cualquier_transicion (o : Mecanico.OrdenTrabajo)
    (s : String)
    (h : s ∈ Mecanico.ESTADO_CHOICES.map Prod.fst) :
    Mecanico.actualizarEstado o s = some { o with estado := s } := by
  unfold Mecanico.actualizarEstado
  rw [if_pos]
  exact List.elem_iff.2 h

/-- Witness for the amended C5: a delivered order updated to
presupuesto, two steps backward in the workflow. -/
theorem estado_cualquier_transicion_witness :
    Mecanico.actualizarEstado Mecanico.ordenEntregada "presupuesto" =
      some { Mecanico.ordenEntregada with estado := "presupuesto" } :=
  estado_cualquier_transicion Mecanico.ordenEntregada "presupuesto"
    (by decide)

/-! ## C6: which negative values the data layer rejects -/

namespace Mecanico

/-- An ajuste movement whose before/after stock snapshots are both
negative; every validated field is fine. -/
def movimientoNegativo : MovimientoStock :=
  { elemento := 1, tipo_movimiento := "ajuste", cantidad := 1,
    motivo := "ajuste de inventario", stock_anterior := -5,
    stock_nuevo := -4, usuario := 1 }

end Mecanico

/-- Counterexample to C6 as stated: stock_anterior and stock_nuevo are
quantity fields of a stock movement, yet a movement carrying negative
values in both passes model validation, because those two fields have no
validator. -/
theorem negativos_aceptados_en_snapshots :
    Mecanico.validarMovimiento Mecanico.movimientoNegativo = true ∧
    Mecanico.movimientoNegativo.stock_anterior < 0 ∧
    Mecanico.movimientoNegativo.stock_nuevo < 0 := by
  refine ⟨?_, ?_, ?_⟩ <;> decide

/-- C6 amended: the data layer rejects a negative cantidad_actual or
stock_minimo on an item, a cantidad below 1 on a movement, a duplicate
or blank codigo, and blank required text (nombre, motivo) — but the
stock_anterior and stock_nuevo fields of a movement accept any integer,
negatives included. -/
theorem validaciones_de_campo (cs : List String)
    (e : Mecanico.ElementoMecanico) (m : Mecanico.MovimientoStock) :
    (e.cantidad_actual < 0 → Mecanico.validarElemento cs e = false) ∧
    (e.stock_minimo < 0 → Mecanico.validarElemento cs e = false) ∧
    (e.codigo ∈ cs → Mecanico.validarElemento cs e = false) ∧
    (e.codigo = "" → Mecanico.validarElemento cs e = false) ∧
    (e.nombre = "" → Mecanico.validarElemento cs e = false) ∧
    (m.cantidad < 1 → Mecanico.validarMovimiento m = false) ∧
    (m.motivo = "" → Mecanico.validarMovimiento m = false) ∧
    (∀ (a n : Int),
      Mecanico.validarMovimiento
        { m with stock_anterior := a, stock_nuevo := n } =
        Mecanico.validarMovimiento m) := by
  refine ⟨?_, ?_, ?_, ?_, ?_, ?_, ?_, fun a n => rfl⟩
  · intro h
    simp [Mecanico.validarElemento, show ¬ (0 ≤ e.cantidad_actual) by omega]
  · intro h
    simp [Mecanico.validarElemento, show ¬ (0 ≤ e.stock_minimo) by omega]
  · intro h
    simp [Mecanico.validarElemento, h]
  · intro h
    simp [Mecanico.validarElemento, h]
  · intro h
    simp [Mecanico.validarElemento, h]
  · intro h
    simp [Mecanico.validarMovimiento, show ¬ (1 ≤ m.cantidad) by omega]
  · intro h
    simp [Mecanico.validarMovimiento, h]

/-- Witness for the amended C6: an item with cantidad_actual -1 is
rejected, and a movement with cantidad 0 is rejected. -/
theorem validaciones_de_campo_witness :
    Mecanico.validarElemento []
      { Mecanico.elementoConDefaults "X-1" "Filtro" 1 1 1 with
        cantidad_actual := -1 } = false ∧
    Mecanico.validarMovimiento
      { Mecanico.movimientoNegativo with cantidad := 0 } = false :=
  ⟨(validaciones_de_campo [] _ Mecanico.movimientoNegativo).1 (by decide),
   (validaciones_de_campo [] (Mecanico.elementoConDefaults "X-1" "Filtro"
      1 1 1) _).2.2.2.2.2.1 (by decide)⟩

/-! ## C7 and C8: the derived money properties -/

/-- C7. valor_total_stock is cantidad_actual times precio_compra when
precio_compra is set (also when it is set to zero, where both readings
give zero), and zero when precio_compra is null. -/
theorem valor_total_stock_spec (e : Mecanico.ElementoMecanico) :
    (∀ p, e.precio_compra = some p →
      Mecanico.valor_total_stock e = e.cantidad_actual * p) ∧
    (e.precio_compra = none → Mecanico.valor_total_stock e = 0) := by
  constructor
  · intro p hp
    unfold Mecanico.valor_total_stock
    rw [hp]
    by_cases h : p = 0
    · simp [h]
    · simp [h]
  · intro hn
    unfold Mecanico.valor_total_stock
    rw [hn]

/-- Witness for C7: an item holding 7 units bought at 2.50 each has
total stock value 17.50 (1750 cents). -/
theorem valor_total_stock_spec_witness :
    Mecanico.valor_total_stock
      { Mecanico.elementoConDefaults "COR-12" "Correa" 1 1 1 with
        cantidad_actual := 7, precio_compra := some 250 } = 7 * 250 :=
  (valor_total_stock_spec _).1 250 rfl

/-- C8. The subtotal of a used-item line is exactly quantity times unit
price as rational (decimal) arithmetic: no rounding occurs when the
cents-valued product is read back as a decimal amount. -/
theorem subtotal_exacto (x : Mecanico.ElementoUsadoOrden) :
    (Mecanico.subtotal x : ℚ) / 100 =
      (x.cantidad_usada : ℚ) * ((x.precio_unitario : ℚ) / 100) := by
  unfold Mecanico.subtotal
  push_cast
  ring
